import Mathlib

/-!
Verification development for the DataNexus web application (src/app.py).

The application keeps one in-memory pandas DataFrame per session and applies
single-call transformations to it: drop columns, impute missing values,
range-filter rows; it also offers profiling views (correlation heatmap) and a
CSV export. This file shallowly embeds the DataFrame slice of the program that
the transformation, profiling, loading and export handlers use, and proves
properties of those handlers.

Modelling conventions:
  * A cell value is a rational number, a text string, or the missing marker
    (pandas NaN). Rationals stand for the int64/float64 cell contents; no
    claim here depends on float rounding.
  * A DataFrame is a header (ordered list of column name / dtype pairs)
    together with a list of rows, each row a list of cells.
  * pandas dtypes are restricted to the three that occur in the claims:
    int64, float64 and object. `pd.api.types.is_numeric_dtype` holds for
    int64 and float64; `select_dtypes(include=['float64','int64'])` selects
    the same two.
  * pandas NaN comparison semantics: `NaN >= x` and `NaN <= x` are False, so
    a missing cell never satisfies a range mask.
  * `df.drop(columns=...)` keeps its pandas default `errors='raise'`: it
    raises a KeyError as soon as any requested label is absent.
-/

namespace DataNexus

/-- A cell of the table: a numeric value, a text value, or missing (NaN). -/
inductive Value where
  | num (q : ℚ)
  | str (s : String)
  | missing
  deriving DecidableEq

/-- The pandas dtypes occurring in this application's tables. -/
inductive DType where
  | int64
  | float64
  | object
  deriving DecidableEq

/-- Embedding of `pd.api.types.is_numeric_dtype` (src/app.py lines 193, 206)
restricted to the dtypes above: int64 and float64 are numeric, object is not. -/
def isNumericDtype : DType → Bool
  | .int64 => true
  | .float64 => true
  | .object => false

/-- Embedding of the column selector of
`df.select_dtypes(include=['float64','int64'])` (src/app.py line 153). -/
def selNumeric (h : String × DType) : Bool :=
  h.2 == DType.float64 || h.2 == DType.int64

/-- The in-memory DataFrame: an ordered header of (name, dtype) pairs and a
list of rows. -/
structure Table where
  header : List (String × DType)
  rows : List (List Value)
  deriving DecidableEq

/-- Well-formedness of a table: every row has one cell per header entry. -/
def Table.WF (t : Table) : Prop :=
  ∀ r ∈ t.rows, r.length = t.header.length

/-- The per-session state: the current DataFrame `st.session_state['df']` and
the stored upload name `st.session_state['file_name']` (src/app.py lines
43-46). -/
structure Session where
  df : Table
  file_name : String

instance : DecidableEq (Except String Table) := fun a b =>
  match a, b with
  | Except.ok x, Except.ok y =>
      if h : x = y then Decidable.isTrue (congrArg Except.ok h)
      else Decidable.isFalse (fun hc => h (Except.ok.inj hc))
  | Except.error x, Except.error y =>
      if h : x = y then Decidable.isTrue (congrArg Except.error h)
      else Decidable.isFalse (fun hc => h (Except.error.inj hc))
  | Except.ok _, Except.error _ => Decidable.isFalse (fun hc => Except.noConfusion hc)
  | Except.error _, Except.ok _ => Decidable.isFalse (fun hc => Except.noConfusion hc)

/-- Python's `str.endswith(suffix)`, used on `file.name` in `load_data`
(src/app.py lines 60, 62), as a suffix test on the character sequences. -/
def strEndsWith (s suffix : String) : Bool :=
  suffix.data.isSuffixOf s.data

/-- The cell of row `j` at column position `k` (missing when out of range). -/
def cellAt (t : Table) (j k : Nat) : Value :=
  (t.rows.getD j []).getD k Value.missing

/-- Position and dtype of the first header entry named `col`; `none` when no
column has that name. Models column lookup `df[col]` / `df.columns` indexing. -/
def findColAux (col : String) : Nat → List (String × DType) → Option (Nat × DType)
  | _, [] => none
  | i, h :: rest => if h.1 == col then some (i, h.2) else findColAux col (i + 1) rest

/-- Lookup of a column by name in a table. -/
def findCol (t : Table) (col : String) : Option (Nat × DType) :=
  findColAux col 0 t.header

/-- A failed transformation leaves the session's table as it was: the handler
assigns `st.session_state['df']` only on the success path (src/app.py lines
177, 189-197, 212). -/
def applyTransform (t : Table) (r : Except String Table) : Table :=
  match r with
  | .ok t2 => t2
  | .error _ => t

/-- Embedding of `df.drop(columns=cols_to_drop)` (src/app.py line 177).
pandas `DataFrame.drop` defaults to `errors='raise'`: when any requested
label is not a column it raises KeyError; otherwise it returns a copy without
the matching columns. -/
def dropColumns (t : Table) (names : List String) : Except String Table :=
  if names.all (fun n => t.header.any (fun h => h.1 == n)) then
    .ok ⟨t.header.filter (fun h => !(names.contains h.1)),
         t.rows.map (fun r =>
           ((t.header.zip r).filter (fun p => !(names.contains p.1.1))).map Prod.snd)⟩
  else
    .error "KeyError: labels not found in axis"

/-- The pandas range mask predicate `(df[col] >= lo) & (df[col] <= hi)`
applied to one cell (src/app.py line 212): true exactly on numeric values in
the closed interval; NaN (and any non-numeric cell) compares False. -/
def rangePred (lo hi : ℚ) : Value → Bool
  | .num q => decide (lo ≤ q) && decide (q ≤ hi)
  | .str _ => false
  | .missing => false

/-- Embedding of the Apply Filter handler (src/app.py lines 204-214): the
filter UI is only offered when the chosen column exists (it is picked from
`df.columns`) and `is_numeric_dtype` holds (line 206); the handler then
replaces the table with `df[(df[col] >= lo) & (df[col] <= hi)]`. -/
def filterRange (t : Table) (col : String) (lo hi : ℚ) : Option Table :=
  match findCol t col with
  | some (i, d) =>
      if isNumericDtype d then
        some ⟨t.header, t.rows.filter (fun r => rangePred lo hi (r.getD i Value.missing))⟩
      else
        none
  | none => none

/-- Replace a missing cell by the given fill value, keep any other cell:
one cell of `Series.fillna` (src/app.py line 194). -/
def fillMissing (m : ℚ) : Value → Value
  | .missing => .num m
  | v => v

/-- The non-missing numeric values of column position `i`, in row order:
the values `Series.mean()` averages over. -/
def numericVals (t : Table) (i : Nat) : List ℚ :=
  t.rows.filterMap (fun r =>
    match r.getD i Value.missing with
    | .num q => some q
    | _ => none)

/-- `Series.mean()` over the non-missing values of column position `i`. -/
def colMean (t : Table) (i : Nat) : ℚ :=
  (numericVals t i).sum / ((numericVals t i).length : ℚ)

/-- Embedding of the Fill with Mean branch (src/app.py lines 192-197):
`df[col]` raises KeyError when the column is absent (unreachable through the
selectbox); a non-numeric dtype hits the `st.error(...)`/`st.stop()` path with
the message below and no assignment; otherwise the column's missing cells are
replaced by `df[col].mean()`. When every cell is missing the mean is NaN and
`fillna(NaN)` leaves the table unchanged. -/
def imputeFillMean (t : Table) (col : String) : Except String Table :=
  match findCol t col with
  | none => .error "KeyError"
  | some (i, d) =>
      if isNumericDtype d then
        if (numericVals t i).isEmpty then
          .ok t
        else
          .ok ⟨t.header,
               t.rows.map (fun r => r.set i (fillMissing (colMean t i) (r.getD i Value.missing)))⟩
      else
        .error "Operation failed: Cannot calculate mean for non-numeric column."

/-- What the Correlation Analysis tab displays (src/app.py lines 150-159):
either the heatmap `px.imshow(numeric_df.corr(), ...)` over the named numeric
columns (a square matrix with one row and one column per name), or the info
message. The matrix entries themselves are pandas internals no claim depends
on, so the heatmap is represented by the list of columns it ranges over. -/
inductive CorrView where
  | heatmap (cols : List String)
  | info
  deriving DecidableEq

/-- Embedding of the Correlation Analysis tab logic: `numeric_df` is
`df.select_dtypes(include=['float64','int64'])`; `numeric_df.empty` holds
when it has no columns or no rows (`select_dtypes` keeps the row index, so
its row count is the table's); the heatmap is drawn iff `not numeric_df.empty`
(src/app.py lines 153-159). -/
def correlationTab (t : Table) : CorrView :=
  let nh := t.header.filter selNumeric
  if nh.isEmpty || t.rows.isEmpty then
    .info
  else
    .heatmap (nh.map Prod.fst)

/-- Result of `load_data` (src/app.py lines 50-66) together with what was
shown: `result` is the function's return value and `message` is the text
passed to `st.error`, when any. -/
structure LoadOutcome where
  result : Option Table
  message : Option String
  deriving DecidableEq

/-- Embedding of `load_data` (src/app.py lines 50-66). The byte stream is
abstracted by the outcomes of the two parsers that may be applied to it:
`csvParse` models `pd.read_csv(file)` and `xlsxParse` models
`pd.read_excel(file)`, each either a parsed table or a raised exception
message. A `.csv` suffix dispatches to the csv parser and a `.xlsx` suffix to
the excel parser; a parse exception is caught and reported through
`st.error(f"... Error loading file: ...")` with `None` returned; any other
suffix falls through the if/elif with no else branch, returning `None`
without any message. -/
def load_data (name : String) (csvParse xlsxParse : Except String Table) : LoadOutcome :=
  if strEndsWith name ".csv" then
    match csvParse with
    | .ok t => ⟨some t, none⟩
    | .error e => ⟨none, some ("Error loading file: " ++ e)⟩
  else if strEndsWith name ".xlsx" then
    match xlsxParse with
    | .ok t => ⟨some t, none⟩
    | .error e => ⟨none, some ("Error loading file: " ++ e)⟩
  else
    ⟨none, none⟩

/-- Rendering of one cell in the CSV export; the exact numeral formatting of
pandas is abstracted by `toString` on the rational. A missing cell is written
as the empty field, as pandas does for NaN. -/
def showValue : Value → String
  | .num q => toString q
  | .str s => s
  | .missing => ""

/-- One data line of the CSV export: the row's cells joined by commas. -/
def rowLine (r : List Value) : String :=
  String.intercalate "," (r.map showValue)

/-- The header line of the CSV export: the column names joined by commas.
`to_csv(index=False)` writes no index column. -/
def headerLine (t : Table) : String :=
  String.intercalate "," (t.header.map Prod.fst)

/-- Embedding of `df.to_csv(index=False)` (src/app.py line 72): the header
line followed by one line per row, each line newline-terminated. -/
def to_csv (t : Table) : String :=
  String.join ((headerLine t :: t.rows.map rowLine).map (fun l => l ++ "\n"))

/-- Embedding of `convert_df` (src/app.py lines 68-72): the CSV text of the
current table; the `.encode('utf-8')` step is the standard UTF-8 encoding of
exactly this string and is not modelled at the byte level. -/
def convert_df (t : Table) : String :=
  to_csv t

/-- The file name offered by the download button (src/app.py line 223):
`f"processed_{st.session_state['file_name']}"`. -/
def downloadFileName (s : Session) : String :=
  "processed_" ++ s.file_name

/-- The line list that §6 of the specification describes for the export: a
header row listing the column names in their current order, then one line per
row with that row's cell values. Stated from the specification's words, to be
compared with `to_csv`. -/
def csvLinesSpec (t : Table) : List String :=
  String.intercalate "," (t.header.map Prod.fst)
    :: t.rows.map (fun r => String.intercalate "," (r.map showValue))

/-- The 3-row, 2-column table of the specification's end-to-end example
(§8): the parse of `a,b\n1,10\n2,\n3,30\n`. -/
def specCSVTable : Table :=
  ⟨[("a", DType.int64), ("b", DType.float64)],
   [[Value.num 1, Value.num 10], [Value.num 2, Value.missing], [Value.num 3, Value.num 30]]⟩

/-- The specification's end-to-end example after ImputeColumn(b, FillMean):
rows (1,10), (2,20), (3,30). -/
def specFilledTable : Table :=
  ⟨[("a", DType.int64), ("b", DType.float64)],
   [[Value.num 1, Value.num 10], [Value.num 2, Value.num 20], [Value.num 3, Value.num 30]]⟩

/- ------------------------------------------------------------------ -/
/- Helper lemmas shared by the claim theorems.                         -/
/- ------------------------------------------------------------------ -/

theorem findColAux_lt (col : String) (l : List (String × DType)) :
    ∀ (k i : Nat) (d : DType), findColAux col k l = some (i, d) → i < k + l.length := by
  induction l with
  | nil => intro k i d h; simp [findColAux] at h
  | cons p rest ih =>
      intro k i d h
      unfold findColAux at h
      by_cases hp : p.1 == col
      · rw [if_pos hp] at h
        injection h with h1
        injection h1 with h2 _
        simp [← h2]
      · rw [if_neg hp] at h
        have := ih (k + 1) i d h
        simp only [List.length_cons]
        omega

theorem findCol_lt (t : Table) (col : String) (i : Nat) (d : DType)
    (h : findCol t col = some (i, d)) : i < t.header.length := by
  have := findColAux_lt col t.header 0 i d h
  omega

theorem fillMissing_eq_ite (m : ℚ) (v : Value) :
    fillMissing m v = if v = Value.missing then Value.num m else v := by
  cases v <;> simp [fillMissing]

theorem getD_set_ne (l : List Value) (i k : Nat) (v : Value) (h : k ≠ i) :
    (l.set i v).getD k Value.missing = l.getD k Value.missing := by
  simp [List.getD_eq_getElem?_getD, List.getElem?_set_ne (Ne.symm h)]

theorem getD_set_self (l : List Value) (i : Nat) (v : Value) (h : i < l.length) :
    (l.set i v).getD i Value.missing = v := by
  simp [List.getD_eq_getElem?_getD, List.getElem?_set_eq_of_lt v h]

theorem dropColumns_guard (t : Table) (names : List String)
    (h : ∀ n ∈ names, n ∈ t.header.map Prod.fst) :
    (names.all fun n => t.header.any fun p => p.1 == n) = true := by
  simp only [List.all_eq_true, List.any_eq_true, beq_iff_eq]
  intro n hn
  obtain ⟨p, hp, hpe⟩ := List.mem_map.mp (h n hn)
  exact ⟨p, hp, hpe⟩

theorem dropColumns_eq_ok (t : Table) (names : List String)
    (h : ∀ n ∈ names, n ∈ t.header.map Prod.fst) :
    dropColumns t names =
      Except.ok ⟨t.header.filter (fun p => !(names.contains p.1)),
        t.rows.map (fun r =>
          ((t.header.zip r).filter (fun p => !(names.contains p.1.1))).map Prod.snd)⟩ := by
  unfold dropColumns
  rw [dropColumns_guard t names h]
  simp

theorem dropColumns_eq_error (t : Table) (names : List String)
    (h : ∃ n ∈ names, n ∉ t.header.map Prod.fst) :
    dropColumns t names = Except.error "KeyError: labels not found in axis" := by
  have hg : (names.all fun n => t.header.any fun p => p.1 == n) = false := by
    obtain ⟨n, hn, hnmem⟩ := h
    simp only [List.all_eq_false, List.any_eq_true, beq_iff_eq]
    refine ⟨n, hn, ?_⟩
    intro hc
    obtain ⟨p, hp, hpe⟩ := hc
    exact hnmem (List.mem_map.mpr ⟨p, hp, hpe⟩)
  unfold dropColumns
  rw [hg]
  simp

/- ------------------------------------------------------------------ -/
/- Claim theorems.                                                     -/
/- ------------------------------------------------------------------ -/

/-- C1: applying ImputeColumn(col, FillMean) when col is a non-numeric column
fails with the explicit "Cannot calculate mean" error message and leaves the
session's table unchanged (the handler stops before any assignment to
`st.session_state['df']`). -/
theorem fillMean_nonNumeric_fails (t : Table) (col : String) (i : Nat) (d : DType)
    (hfind : findCol t col = some (i, d)) (hnum : isNumericDtype d = false) :
    imputeFillMean t col =
      Except.error "Operation failed: Cannot calculate mean for non-numeric column." ∧
    applyTransform t (imputeFillMean t col) = t := by
  have h : imputeFillMean t col =
      Except.error "Operation failed: Cannot calculate mean for non-numeric column." := by
    unfold imputeFillMean
    rw [hfind]
    simp [hnum]
  exact ⟨h, by rw [h]; rfl⟩

/-- C1 witness: a one-column text table hits the failure path and is left
unchanged. -/
theorem fillMean_nonNumeric_witness :
    (findCol ⟨[("city", DType.object)], [[Value.str "x"]]⟩ "city" = some (0, DType.object) ∧
      isNumericDtype DType.object = false) ∧
    (imputeFillMean ⟨[("city", DType.object)], [[Value.str "x"]]⟩ "city" =
        Except.error "Operation failed: Cannot calculate mean for non-numeric column." ∧
      applyTransform ⟨[("city", DType.object)], [[Value.str "x"]]⟩
          (imputeFillMean ⟨[("city", DType.object)], [[Value.str "x"]]⟩ "city") =
        ⟨[("city", DType.object)], [[Value.str "x"]]⟩) :=
  ⟨⟨by decide, by decide⟩,
   fillMean_nonNumeric_fails ⟨[("city", DType.object)], [[Value.str "x"]]⟩ "city" 0 DType.object
     (by decide) (by decide)⟩

/-- C2 counterexample: the claim says DropColumns never fails and silently
ignores a name that is not a column, but `df.drop(columns=...)` keeps pandas'
default `errors='raise'`, so dropping the unknown name "z" fails. -/
theorem dropColumns_unknown_name_raises :
    dropColumns ⟨[("a", DType.int64)], [[Value.num 1]]⟩ ["z"] =
      Except.error "KeyError: labels not found in axis" := by
  decide

/-- C2 (amended): whenever every requested name is a column of the table —
which the Drop Features multiselect guarantees, offering only `df.columns` —
DropColumns succeeds, removes exactly the columns whose names are in the
requested set (keeping the others in order), and leaves the row count
unchanged. A name that is not a column instead makes `df.drop` raise a
KeyError. -/
theorem dropColumns_existing_names_ok (t : Table) (names : List String)
    (h : ∀ n ∈ names, n ∈ t.header.map Prod.fst) :
    ∃ t2, dropColumns t names = Except.ok t2 ∧
      t2.header = t.header.filter (fun p => !(names.contains p.1)) ∧
      t2.rows.length = t.rows.length := by
  refine ⟨_, dropColumns_eq_ok t names h, rfl, ?_⟩
  simp

/-- C2 witness: dropping the existing column "b" from the specification's
example table succeeds, keeps column "a", and keeps all 3 rows. -/
theorem dropColumns_existing_names_witness :
    (∀ n ∈ ["b"], n ∈ specCSVTable.header.map Prod.fst) ∧
    (∃ t2, dropColumns specCSVTable ["b"] = Except.ok t2 ∧
      t2.header = specCSVTable.header.filter (fun p => !(["b"].contains p.1)) ∧
      t2.rows.length = specCSVTable.rows.length) :=
  ⟨by decide, dropColumns_existing_names_ok specCSVTable ["b"] (by decide)⟩

/-- C7 counterexample: DropColumns is not idempotent as claimed. After
dropping "a" once, a second DropColumns({"a"}) raises a KeyError rather than
succeeding as a no-op, because `df.drop` keeps pandas' default
`errors='raise'` and "a" is no longer a column. -/
theorem dropColumns_twice_second_raises :
    dropColumns ⟨[("a", DType.int64), ("b", DType.int64)], [[Value.num 1, Value.num 2]]⟩ ["a"] =
      Except.ok ⟨[("b", DType.int64)], [[Value.num 2]]⟩ ∧
    dropColumns ⟨[("b", DType.int64)], [[Value.num 2]]⟩ ["a"] =
      Except.error "KeyError: labels not found in axis" := by
  constructor
  · decide
  · decide

/-- C7 (amended): for a column name n that exists, DropColumns({n}) succeeds
once; applying DropColumns({n}) to the result fails with a KeyError instead
of succeeding as a no-op (the UI cannot issue this second request, since the
multiselect only offers current columns). Because a failed transformation
leaves the session's table unchanged, the table after the failed second
application still equals the table after dropping once. -/
theorem dropColumns_twice_errors (t : Table) (n : String)
    (h : n ∈ t.header.map Prod.fst) :
    ∃ t1, dropColumns t [n] = Except.ok t1 ∧
      dropColumns t1 [n] = Except.error "KeyError: labels not found in axis" ∧
      applyTransform t1 (dropColumns t1 [n]) = t1 := by
  have h1 : ∀ m ∈ [n], m ∈ t.header.map Prod.fst := by
    intro m hm
    rw [List.mem_singleton.mp hm]
    exact h
  refine ⟨_, dropColumns_eq_ok t [n] h1, ?_⟩
  have herr : dropColumns
      (⟨t.header.filter (fun p => !(([n] : List String).contains p.1)),
        t.rows.map (fun r =>
          ((t.header.zip r).filter (fun p => !(([n] : List String).contains p.1.1))).map
            Prod.snd)⟩ : Table) [n] =
      Except.error "KeyError: labels not found in axis" := by
    apply dropColumns_eq_error
    refine ⟨n, List.mem_singleton.mpr rfl, ?_⟩
    intro hc
    obtain ⟨p, hp, hpe⟩ := List.mem_map.mp hc
    have := (List.mem_filter.mp hp).2
    rw [hpe] at this
    simp at this
  exact ⟨herr, by rw [herr]; rfl⟩

/-- C7 witness: instance of the amended statement at a concrete two-column
table. -/
theorem dropColumns_twice_errors_witness :
    ("a" ∈ (⟨[("a", DType.int64), ("b", DType.int64)],
        [[Value.num 1, Value.num 2]]⟩ : Table).header.map Prod.fst) ∧
    (∃ t1, dropColumns ⟨[("a", DType.int64), ("b", DType.int64)],
          [[Value.num 1, Value.num 2]]⟩ ["a"] = Except.ok t1 ∧
      dropColumns t1 ["a"] = Except.error "KeyError: labels not found in axis" ∧
      applyTransform t1 (dropColumns t1 ["a"]) = t1) :=
  ⟨by decide,
   dropColumns_twice_errors ⟨[("a", DType.int64), ("b", DType.int64)],
     [[Value.num 1, Value.num 2]]⟩ "a" (by decide)⟩

/-- C3 counterexample: on a table with exactly one numeric column and one
row, the Correlation Analysis tab does not show the insufficient-data
message; `numeric_df` is non-empty, so the code computes `numeric_df.corr()`
and draws a heatmap over the single column — a 1×1 matrix. -/
theorem correlation_one_column_heatmap :
    correlationTab ⟨[("a", DType.float64)], [[Value.num 1]]⟩ = CorrView.heatmap ["a"] ∧
    correlationTab ⟨[("a", DType.float64)], [[Value.num 1]]⟩ ≠ CorrView.info := by
  constructor
  · decide
  · decide

/-- C3 (amended): the insufficient-data message appears exactly when
`numeric_df` is empty, that is, when the table has no numeric column or no
rows; with exactly one numeric column and at least one row the tab instead
computes the correlation and draws a heatmap over that single column (a 1×1
matrix), because the guard is `not numeric_df.empty`, not a check for at
least 2 numeric columns. -/
theorem correlationTab_info_iff (t : Table) :
    (correlationTab t = CorrView.info ↔ t.header.filter selNumeric = [] ∨ t.rows = []) ∧
    ((t.header.filter selNumeric).length = 1 → t.rows ≠ [] →
      correlationTab t = CorrView.heatmap ((t.header.filter selNumeric).map Prod.fst) ∧
      ((t.header.filter selNumeric).map Prod.fst).length = 1) := by
  constructor
  · unfold correlationTab
    by_cases h1 : t.header.filter selNumeric = [] <;> by_cases h2 : t.rows = [] <;>
      simp_all [List.isEmpty_iff]
  · intro hl hr
    have h1 : t.header.filter selNumeric ≠ [] := by
      intro hc
      rw [hc] at hl
      simp at hl
    have hb : ((t.header.filter selNumeric).isEmpty || t.rows.isEmpty) = false := by
      simp [List.isEmpty_iff, h1, hr]
    refine ⟨?_, by simp [hl]⟩
    unfold correlationTab
    simp [hb]

/-- C3 witness: instance of the amended statement at the one-numeric-column,
one-row table. -/
theorem correlationTab_info_iff_witness :
    correlationTab ⟨[("a", DType.float64)], [[Value.num 1]]⟩ =
      CorrView.heatmap (((⟨[("a", DType.float64)],
        [[Value.num 1]]⟩ : Table).header.filter selNumeric).map Prod.fst) ∧
    (((⟨[("a", DType.float64)],
        [[Value.num 1]]⟩ : Table).header.filter selNumeric).map Prod.fst).length = 1 :=
  (correlationTab_info_iff ⟨[("a", DType.float64)], [[Value.num 1]]⟩).2 (by decide) (by decide)

/-- C4 counterexample: for a file whose name ends in neither `.csv` nor
`.xlsx`, `load_data` falls through its if/elif with no else branch: it
returns None silently, with no error message shown — not a LoadError carrying
a surfaced message. (The uploader's `type=['csv','xlsx']` filter keeps such
files out of the app.) -/
theorem load_unsupported_suffix_silent :
    load_data "data.txt" (Except.ok ⟨[("a", DType.int64)], [[Value.num 1]]⟩)
        (Except.ok ⟨[("a", DType.int64)], [[Value.num 1]]⟩) = ⟨none, none⟩ ∧
    strEndsWith "data.txt" ".csv" = false ∧
    strEndsWith "data.txt" ".xlsx" = false := by
  refine ⟨by decide, by decide, by decide⟩

/-- C4 (amended): when the suffix dispatches to a parser and that parser
raises, `load_data` catches the exception, surfaces an "Error loading file"
message through `st.error`, and returns None — the caller checks for None
and does not crash. When the suffix is neither `.csv` nor `.xlsx`, however,
`load_data` returns None silently with no message. -/
theorem load_data_error_reporting (name : String) (csvParse xlsxParse : Except String Table)
    (e : String) :
    (strEndsWith name ".csv" = true → csvParse = Except.error e →
      load_data name csvParse xlsxParse = ⟨none, some ("Error loading file: " ++ e)⟩) ∧
    (strEndsWith name ".csv" = false → strEndsWith name ".xlsx" = true →
      xlsxParse = Except.error e →
      load_data name csvParse xlsxParse = ⟨none, some ("Error loading file: " ++ e)⟩) ∧
    (strEndsWith name ".csv" = false → strEndsWith name ".xlsx" = false →
      load_data name csvParse xlsxParse = ⟨none, none⟩) := by
  refine ⟨?_, ?_, ?_⟩
  · intro h1 h2
    unfold load_data
    rw [h1, h2]
    simp
  · intro h1 h2 h3
    unfold load_data
    rw [h1, h2, h3]
    simp
  · intro h1 h2
    unfold load_data
    rw [h1, h2]
    simp

/-- C4 witness: a malformed `.csv` upload is reported with a message, and a
`.txt` name is silently refused. -/
theorem load_data_error_reporting_witness :
    load_data "bad.csv" (Except.error "ParserError") (Except.ok specCSVTable) =
      ⟨none, some ("Error loading file: " ++ "ParserError")⟩ ∧
    load_data "notes.txt" (Except.ok specCSVTable) (Except.ok specCSVTable) =
      ⟨none, none⟩ := by
  constructor
  · exact (load_data_error_reporting "bad.csv" (Except.error "ParserError")
      (Except.ok specCSVTable) "ParserError").1 (by decide) rfl
  · exact (load_data_error_reporting "notes.txt" (Except.ok specCSVTable)
      (Except.ok specCSVTable) "ParserError").2.2 (by decide) (by decide)

/-- C5: for a numeric column that exists and bounds lo ≤ hi, Apply Filter
replaces the table with exactly the rows whose value in the column lies in
the closed interval [lo, hi] (both endpoints inclusive): the retained rows
are a sublist of the original rows (row order and every cell of each
retained row preserved), the header is unchanged, and the pandas mask
`(df[col] >= lo) & (df[col] <= hi)` holds of a cell exactly when it is a
numeric value q with lo ≤ q ≤ hi. -/
theorem filterRange_keeps_exactly_interval (t : Table) (col : String) (i : Nat) (d : DType)
    (lo hi : ℚ) (hfind : findCol t col = some (i, d)) (hnum : isNumericDtype d = true)
    (hle : lo ≤ hi) :
    ∃ t2, filterRange t col lo hi = some t2 ∧
      t2.header = t.header ∧
      t2.rows = t.rows.filter (fun r => rangePred lo hi (r.getD i Value.missing)) ∧
      t2.rows.Sublist t.rows ∧
      ∀ v, rangePred lo hi v = true ↔ ∃ q, v = Value.num q ∧ lo ≤ q ∧ q ≤ hi := by
  refine ⟨⟨t.header, t.rows.filter (fun r => rangePred lo hi (r.getD i Value.missing))⟩,
    ?_, rfl, rfl, List.filter_sublist _, ?_⟩
  · unfold filterRange
    rw [hfind]
    simp [hnum]
  · intro v
    cases v <;> simp [rangePred]

/-- C5 witness: the specification's end-to-end example — FilterRange(a, 2, 3)
on the table with a = (1,2,3) retains exactly the rows where a ∈ {2,3}. -/
theorem filterRange_keeps_exactly_interval_witness :
    (∃ t2, filterRange specFilledTable "a" 2 3 = some t2 ∧
      t2.header = specFilledTable.header ∧ t2.rows.Sublist specFilledTable.rows) ∧
    filterRange specFilledTable "a" 2 3 =
      some ⟨specFilledTable.header,
        [[Value.num 2, Value.num 20], [Value.num 3, Value.num 30]]⟩ := by
  have h := filterRange_keeps_exactly_interval specFilledTable "a" 0 DType.int64 2 3
    (by decide) (by decide) (by decide)
  obtain ⟨t2, h1, h2, h3, h4, h5⟩ := h
  exact ⟨⟨t2, h1, h2, h4⟩, by decide⟩

/-- C8: FilterRange is idempotent — applying the same filter to the result of
filtering retains every row, since each retained row's cell already satisfies
the range mask. -/
theorem filterRange_idem (t : Table) (col : String) (i : Nat) (d : DType) (lo hi : ℚ)
    (hfind : findCol t col = some (i, d)) (hnum : isNumericDtype d = true) (hle : lo ≤ hi)
    (t2 : Table) (h : filterRange t col lo hi = some t2) :
    filterRange t2 col lo hi = some t2 := by
  unfold filterRange at h
  rw [hfind] at h
  simp only [hnum, if_true] at h
  have ht2 : t2 = ⟨t.header, t.rows.filter (fun r => rangePred lo hi (r.getD i Value.missing))⟩ := by
    exact (Option.some.inj h).symm
  subst ht2
  unfold filterRange
  have hfind2 : findColAux col 0 t.header = some (i, d) := hfind
  rw [show findCol ⟨t.header,
      t.rows.filter (fun r => rangePred lo hi (r.getD i Value.missing))⟩ col =
    findColAux col 0 t.header from rfl, hfind2]
  simp only [hnum, if_true]
  rw [List.filter_filter]
  simp

/-- C8 witness: filtering the specification's example table on a ∈ [2, 3]
twice yields the once-filtered table. -/
theorem filterRange_idem_witness :
    filterRange specFilledTable "a" 2 3 =
      some ⟨specFilledTable.header,
        [[Value.num 2, Value.num 20], [Value.num 3, Value.num 30]]⟩ ∧
    filterRange (⟨specFilledTable.header,
        [[Value.num 2, Value.num 20], [Value.num 3, Value.num 30]]⟩ : Table) "a" 2 3 =
      some ⟨specFilledTable.header,
        [[Value.num 2, Value.num 20], [Value.num 3, Value.num 30]]⟩ := by
  have h1 : filterRange specFilledTable "a" 2 3 =
      some ⟨specFilledTable.header,
        [[Value.num 2, Value.num 20], [Value.num 3, Value.num 30]]⟩ := by decide
  exact ⟨h1, filterRange_idem specFilledTable "a" 0 DType.int64 2 3
    (by decide) (by decide) (by decide) _ h1⟩

/-- C10: FilterRange removes every row whose value in the filter column is
missing, for every choice of bounds, because NaN satisfies neither
comparison of the mask `(df[col] >= lo) & (df[col] <= hi)`: every retained
row has a non-missing cell in the filter column. -/
theorem filterRange_drops_missing (t : Table) (col : String) (i : Nat) (d : DType)
    (hfind : findCol t col = some (i, d)) (hnum : isNumericDtype d = true) (lo hi : ℚ) :
    ∃ t2, filterRange t col lo hi = some t2 ∧
      ∀ r ∈ t2.rows, r.getD i Value.missing ≠ Value.missing := by
  refine ⟨⟨t.header, t.rows.filter (fun r => rangePred lo hi (r.getD i Value.missing))⟩, ?_, ?_⟩
  · unfold filterRange
    rw [hfind]
    simp [hnum]
  · intro r hr hmiss
    have hp := (List.mem_filter.mp hr).2
    rw [hmiss] at hp
    simp [rangePred] at hp

/-- C10 witness: with b = (10, missing, 30) and the full observed range
[10, 30], the missing row is still removed: only the two non-missing rows
survive. -/
theorem filterRange_drops_missing_witness :
    (∃ t2, filterRange specCSVTable "b" 10 30 = some t2 ∧
      ∀ r ∈ t2.rows, r.getD 1 Value.missing ≠ Value.missing) ∧
    filterRange specCSVTable "b" 10 30 =
      some ⟨specCSVTable.header,
        [[Value.num 1, Value.num 10], [Value.num 3, Value.num 30]]⟩ :=
  ⟨filterRange_drops_missing specCSVTable "b" 1 DType.float64 (by decide) (by decide) 10 30,
   by decide⟩

theorem rows_map_getD (f : List Value → List Value) (hf : f [] = [])
    (rs : List (List Value)) (j : Nat) :
    (rs.map f).getD j [] = f (rs.getD j []) := by
  rw [List.getD_eq_getElem?_getD, List.getD_eq_getElem?_getD, List.getElem?_map]
  cases h : rs[j]? with
  | none => simp [hf]
  | some r => simp

/-- C6: for an existing numeric column with at least one non-missing value,
Fill with Mean succeeds, replaces each missing cell of that column with the
arithmetic mean of the column's non-missing values, and changes nothing
else: the header, the row count, and every cell outside the column are
untouched, and a non-missing cell of the column keeps its value. -/
theorem fillMean_fills_missing_with_mean (t : Table) (col : String) (i : Nat) (d : DType)
    (hwf : Table.WF t) (hfind : findCol t col = some (i, d)) (hnum : isNumericDtype d = true)
    (hvals : numericVals t i ≠ []) :
    ∃ t2, imputeFillMean t col = Except.ok t2 ∧
      t2.header = t.header ∧
      t2.rows.length = t.rows.length ∧
      (∀ j k, k ≠ i → cellAt t2 j k = cellAt t j k) ∧
      (∀ j, j < t.rows.length →
        cellAt t2 j i =
          if cellAt t j i = Value.missing
          then Value.num ((numericVals t i).sum / ((numericVals t i).length : ℚ))
          else cellAt t j i) := by
  have hemp : (numericVals t i).isEmpty = false := by
    cases hx : (numericVals t i).isEmpty
    · rfl
    · exact absurd (List.isEmpty_iff.mp hx) hvals
  refine ⟨⟨t.header,
      t.rows.map (fun r => r.set i (fillMissing (colMean t i) (r.getD i Value.missing)))⟩,
    ?_, rfl, by simp, ?_, ?_⟩
  · unfold imputeFillMean
    rw [hfind]
    simp [hnum, hemp]
  · intro j k hk
    unfold cellAt
    rw [show (⟨t.header,
        t.rows.map (fun r => r.set i (fillMissing (colMean t i)
          (r.getD i Value.missing)))⟩ : Table).rows =
      t.rows.map (fun r => r.set i (fillMissing (colMean t i) (r.getD i Value.missing)))
      from rfl]
    rw [rows_map_getD _ rfl t.rows j]
    exact getD_set_ne _ i k _ hk
  · intro j hj
    unfold cellAt
    rw [show (⟨t.header,
        t.rows.map (fun r => r.set i (fillMissing (colMean t i)
          (r.getD i Value.missing)))⟩ : Table).rows =
      t.rows.map (fun r => r.set i (fillMissing (colMean t i) (r.getD i Value.missing)))
      from rfl]
    rw [rows_map_getD _ rfl t.rows j]
    have hrmem : t.rows.getD j [] ∈ t.rows := by
      rw [List.getD_eq_getElem?_getD, List.getElem?_eq_getElem hj]
      exact List.getElem?_mem (List.getElem?_eq_getElem hj)
    have hlen : i < (t.rows.getD j []).length := by
      rw [hwf _ hrmem]
      exact findCol_lt t col i d hfind
    rw [getD_set_self _ i _ hlen, fillMissing_eq_ite]
    rfl

/-- C6 witness: the specification's end-to-end example — on the table with
a = (1,2,3) and b = (10, missing, 30), Fill with Mean on b fills the missing
cell with mean of 10 and 30, that is 20, producing b = (10, 20, 30). -/
theorem fillMean_fills_missing_with_mean_witness :
    imputeFillMean specCSVTable "b" = Except.ok specFilledTable ∧
    (∃ t2, imputeFillMean specCSVTable "b" = Except.ok t2 ∧
      t2.rows.length = specCSVTable.rows.length ∧
      cellAt t2 0 1 = Value.num 10 ∧ cellAt t2 2 1 = Value.num 30) := by
  have hfill : imputeFillMean specCSVTable "b" = Except.ok specFilledTable := by
    have h0 : imputeFillMean specCSVTable "b" =
        Except.ok ⟨specCSVTable.header,
          specCSVTable.rows.map (fun r =>
            r.set 1 (fillMissing (colMean specCSVTable 1) (r.getD 1 Value.missing)))⟩ := rfl
    have hv : numericVals specCSVTable 1 = [10, 30] := by decide
    have hm : colMean specCSVTable 1 = 20 := by
      unfold colMean
      rw [hv]
      norm_num
    rw [h0, hm]
    decide
  obtain ⟨t2, h1, h2, h3, h4, h5⟩ :=
    fillMean_fills_missing_with_mean specCSVTable "b" 1 DType.float64
      (by unfold Table.WF; decide) (by decide) (by decide) (by decide)
  refine ⟨hfill, t2, h1, h3, ?_, ?_⟩
  · have := h5 0 (by decide)
    rw [this]
    decide
  · have := h5 2 (by decide)
    rw [this]
    decide

/-- C9: the export produces CSV text whose line structure is the
specification's: a header line listing exactly the column names in their
current order (no index column, since `to_csv(index=False)`), followed by
one line per row with that row's cell values; and the offered download name
is `processed_` followed by the stored source file name. -/
theorem export_csv_structure (t : Table) (s : Session) :
    convert_df t = String.join ((csvLinesSpec t).map (fun l => l ++ "\n")) ∧
    (csvLinesSpec t).length = t.rows.length + 1 ∧
    (csvLinesSpec t).head? = some (String.intercalate "," (t.header.map Prod.fst)) ∧
    (csvLinesSpec t).tail = t.rows.map (fun r => String.intercalate "," (r.map showValue)) ∧
    downloadFileName s = "processed_" ++ s.file_name := by
  refine ⟨rfl, by simp [csvLinesSpec], rfl, rfl, rfl⟩

end DataNexus
